import Mathlib

/-!
Verification of the ComEd energy-pricing Stream Deck plugin
(`src/actions/comed-pricing.ts`, tests in `test/comed-pricing.test.js`).

The plugin's pricing pipeline is shallowly embedded here:

* JavaScript numbers are modelled exactly: a decimal string is parsed to an
  exact rational and rounded to 53 significant binary bits with
  round-to-nearest, ties-to-even — the IEEE-754 double that `parseFloat`
  produces.  Division by 100 likewise rounds its exact quotient.  `toFixed`
  is modelled by the ECMA-262 fixed-point algorithm (round half away from
  zero on the magnitude of the exact double value).  NaN and the two
  infinities are represented explicitly.  Out of scope, and irrelevant to
  every price magnitude the claims mention: exponent overflow to infinity
  (inputs beyond 1e308), subnormal rounding (inputs below 1e-308), and the
  `toFixed` delegation to `ToString` for magnitudes at or above 1e21.

* Rationals are carried as unreduced `num/den` pairs (`Frac`) so that every
  arithmetic step is plain integer arithmetic and kernel-evaluable.

* The plugin methods `formatPrice`, `calculateTrend`, `generatePricingSVG`,
  `generateErrorSVG` and the body of `updatePricing` are translated
  line by line; SVG template literals become explicit concatenations of
  their fixed chunks and interpolated values, with the source's
  surrounding-whitespace `.trim()` applied.
-/

/-- Unreduced rational number: `num / den` with a positive denominator.
No gcd normalisation is performed, so all operations are single integer
multiplications and stay kernel-evaluable. -/
structure Frac where
  num : ℤ
  den : ℕ
  pos : 0 < den

instance : DecidableEq Frac := fun a b =>
  decidable_of_iff (a.num = b.num ∧ a.den = b.den) (by
    cases a; cases b; simp)

/-- Value-level strict order on fractions (cross multiplication). -/
def Frac.ltB (a b : Frac) : Bool := decide (a.num * (b.den : ℤ) < b.num * (a.den : ℤ))

/-- Value-level non-strict order on fractions (cross multiplication). -/
def Frac.leB (a b : Frac) : Bool := decide (a.num * (b.den : ℤ) ≤ b.num * (a.den : ℤ))

/-- Value-level equality on fractions (cross multiplication). -/
def Frac.eqB (a b : Frac) : Bool := decide (a.num * (b.den : ℤ) = b.num * (a.den : ℤ))

/-- Product of two fractions. -/
def Frac.mul (a b : Frac) : Frac :=
  ⟨a.num * b.num, a.den * b.den, Nat.mul_pos a.pos b.pos⟩

/-- Negation of a fraction. -/
def Frac.neg (a : Frac) : Frac := ⟨-a.num, a.den, a.pos⟩

/-- Absolute value of a fraction. -/
def Frac.abs (a : Frac) : Frac := ⟨(a.num.natAbs : ℤ), a.den, a.pos⟩

/-- The integer `n` as a fraction. -/
def Frac.ofInt (n : ℤ) : Frac := ⟨n, 1, Nat.one_pos⟩

/-- Floor of a fraction, via flooring integer division. -/
def Frac.floor (a : Frac) : ℤ := Int.fdiv a.num (a.den : ℤ)

/-- Two to an integer power, as a fraction. -/
def pow2 (e : ℤ) : Frac :=
  if h : 0 ≤ e then ⟨((2 : ℕ) ^ e.toNat : ℕ), 1, Nat.one_pos⟩
  else ⟨1, 2 ^ (-e).toNat, Nat.pow_pos (by decide)⟩

/-- Round a fraction to the nearest integer, ties to even (IEEE default). -/
def rNE (x : Frac) : ℤ :=
  if 2 * (x.num - x.floor * (x.den : ℤ)) < (x.den : ℤ) then x.floor
  else if (x.den : ℤ) < 2 * (x.num - x.floor * (x.den : ℤ)) then x.floor + 1
  else if x.floor % 2 = 0 then x.floor else x.floor + 1

/-- Round a fraction to the nearest integer, ties away from zero upward:
`⌊x + 1/2⌋`, the ECMA-262 `toFixed` rounding applied to magnitudes. -/
def roundHalfUp (x : Frac) : ℤ := Int.fdiv (2 * x.num + (x.den : ℤ)) (2 * (x.den : ℤ))

/-- Fuel-driven binary logarithm: `natLog2Aux fuel n = ⌊log₂ n⌋` whenever
`fuel ≥ n ≥ 1`.  Structural recursion on the fuel keeps it kernel-evaluable. -/
def natLog2Aux : ℕ → ℕ → ℕ
  | 0, _ => 0
  | fuel + 1, n => if n < 2 then 0 else natLog2Aux fuel (n / 2) + 1

/-- The floor of the binary logarithm of a natural number. -/
def natLog2 (n : ℕ) : ℕ := natLog2Aux n n

/-- The floor of the binary logarithm of a positive fraction. -/
def floorLog2 (x : Frac) : ℤ :=
  let e0 : ℤ := (natLog2 x.num.toNat : ℤ) - (natLog2 x.den : ℤ) - 1
  if (pow2 (e0 + 1)).leB x then e0 + 1 else e0

/-- The dyadic rational `m * 2^k` as a fraction. -/
def fracOfDyadic (m : ℤ) (k : ℤ) : Frac :=
  if h : 0 ≤ k then ⟨m * ((2 : ℕ) ^ k.toNat : ℕ), 1, Nat.one_pos⟩
  else ⟨m, 2 ^ (-k).toNat, Nat.pow_pos (by decide)⟩

/-- Round a positive fraction to the nearest IEEE-754 double (53 significant
bits, nearest-even), returned as an exact fraction. -/
def toDoublePos (x : Frac) : Frac :=
  let e := floorLog2 x
  let m := rNE (x.mul (pow2 (52 - e)))
  fracOfDyadic m (e - 52)

/-- Round a fraction to the nearest IEEE-754 double, returned exactly. -/
def toDouble (x : Frac) : Frac :=
  if x.num = 0 then Frac.ofInt 0
  else if x.num < 0 then Frac.neg (toDoublePos (Frac.neg x))
  else toDoublePos x

/-- A JavaScript number as `parseFloat` and arithmetic can produce it:
NaN, a signed infinity, or a finite value carried exactly. -/
inductive JSFloat where
  | nan
  | inf (neg : Bool)
  | fin (q : Frac)

instance : DecidableEq JSFloat := fun a b =>
  match a, b with
  | .nan, .nan => isTrue rfl
  | .inf n₁, .inf n₂ =>
    if h : n₁ = n₂ then isTrue (by rw [h]) else isFalse (by intro hc; cases hc; exact h rfl)
  | .fin q₁, .fin q₂ =>
    if h : q₁ = q₂ then isTrue (by rw [h]) else isFalse (by intro hc; cases hc; exact h rfl)
  | .nan, .inf _ => isFalse (by intro h; cases h)
  | .nan, .fin _ => isFalse (by intro h; cases h)
  | .inf _, .nan => isFalse (by intro h; cases h)
  | .inf _, .fin _ => isFalse (by intro h; cases h)
  | .fin _, .nan => isFalse (by intro h; cases h)
  | .fin _, .inf _ => isFalse (by intro h; cases h)

/-- The JavaScript `isNaN` test. -/
def jsIsNaN : JSFloat → Bool
  | .nan => true
  | _ => false

/-- The JavaScript `<` comparison on numbers: false whenever NaN is involved. -/
def jsLt : JSFloat → JSFloat → Bool
  | .nan, _ => false
  | _, .nan => false
  | .inf n₁, .inf n₂ => n₁ && !n₂
  | .inf n₁, .fin _ => n₁
  | .fin _, .inf n₂ => !n₂
  | .fin q₁, .fin q₂ => q₁.ltB q₂

/-- The JavaScript `>` comparison on numbers. -/
def jsGt (a b : JSFloat) : Bool := jsLt b a

/-- The JavaScript `<=` comparison on numbers: false whenever NaN is involved. -/
def jsLe : JSFloat → JSFloat → Bool
  | .nan, _ => false
  | _, .nan => false
  | .inf n₁, .inf n₂ => n₁ || !n₂
  | .inf n₁, .fin _ => n₁
  | .fin _, .inf n₂ => !n₂
  | .fin q₁, .fin q₂ => q₁.leB q₂

/-- The JavaScript `>=` comparison on numbers. -/
def jsGe (a b : JSFloat) : Bool := jsLe b a

/-- The JavaScript `==` comparison on non-NaN numbers (false on NaN). -/
def jsEq : JSFloat → JSFloat → Bool
  | .nan, _ => false
  | _, .nan => false
  | .inf n₁, .inf n₂ => n₁ == n₂
  | .inf _, .fin _ => false
  | .fin _, .inf _ => false
  | .fin q₁, .fin q₂ => q₁.eqB q₂

/-- JavaScript division of a number by 100: the exact quotient of a finite
value, rounded back to a double. -/
def jsDiv100 : JSFloat → JSFloat
  | .nan => .nan
  | .inf n => .inf n
  | .fin q => .fin (toDouble ⟨q.num, q.den * 100, Nat.mul_pos q.pos (by decide)⟩)

/-- Whitespace accepted (and skipped) at the front of a `parseFloat` input. -/
def jsWhite (c : Char) : Bool :=
  c = ' ' || c = '\t' || c = '\n' || c = '\r' || c = '\x0b' || c = '\x0c' ||
  c = ' ' || c = '﻿'

/-- Numeric value of a list of decimal digit characters. -/
def natOfDigits (l : List Char) : ℕ :=
  l.foldl (fun n c => 10 * n + (c.toNat - 48)) 0

/-- Exponent part of a JavaScript decimal literal: `e`/`E`, optional sign,
digits.  An incomplete exponent is not part of the longest valid prefix and
contributes `0`, exactly as `parseFloat` ignores it. -/
def parseExpPart (l : List Char) : ℤ :=
  match l with
  | c :: rest =>
    if c = 'e' || c = 'E' then
      let signDigits : Bool × List Char :=
        match rest with
        | '-' :: r => (true, r)
        | '+' :: r => (false, r)
        | r => (false, r)
      let ds := signDigits.2.takeWhile Char.isDigit
      if ds.isEmpty then 0
      else if signDigits.1 then -(natOfDigits ds : ℤ) else (natOfDigits ds : ℤ)
    else 0
  | [] => 0

/-- Significand of a JavaScript decimal literal after the sign: digits, an
optional point with further digits, and an optional exponent.  Returns the
digit string's value `a`, the number of fraction digits `scale`, and the
exponent; `none` when no digit is present (NaN). -/
def parseSig (l : List Char) : Option (ℕ × ℕ × ℤ) :=
  let ip := l.takeWhile Char.isDigit
  let r1 := l.drop ip.length
  let fpR2 : List Char × List Char :=
    match r1 with
    | '.' :: r => (r.takeWhile Char.isDigit, r.drop (r.takeWhile Char.isDigit).length)
    | _ => ([], r1)
  if ip.isEmpty ∧ fpR2.1.isEmpty then none
  else some (natOfDigits (ip ++ fpR2.1), fpR2.1.length, parseExpPart fpR2.2)

/-- Exact value of the nonnegative decimal `a * 10^(exp - scale)`. -/
def decValue (a : ℕ) (scale : ℕ) (e : ℤ) : Frac :=
  if h : 0 ≤ e - (scale : ℤ) then ⟨(a : ℤ) * ((10 : ℕ) ^ (e - (scale : ℤ)).toNat : ℕ), 1, Nat.one_pos⟩
  else ⟨(a : ℤ), 10 ^ ((scale : ℤ) - e).toNat, Nat.pow_pos (by decide)⟩

/-- The JavaScript `parseFloat`: skip leading whitespace, read an optional
sign, recognise `Infinity`, otherwise read the longest decimal-literal
prefix and round its exact value to the nearest double; NaN when no prefix
parses. -/
def parseFloat (s : String) : JSFloat :=
  let l1 := s.data.dropWhile jsWhite
  let signRest : Bool × List Char :=
    match l1 with
    | '-' :: r => (true, r)
    | '+' :: r => (false, r)
    | r => (false, r)
  if signRest.2.take 8 = "Infinity".data then .inf signRest.1
  else
    match parseSig signRest.2 with
    | none => .nan
    | some (a, scale, e) =>
      let v := toDouble (decValue a scale e)
      .fin (if signRest.1 then Frac.neg v else v)

/-- Decimal digit character for `n < 10`. -/
def digitChar (n : ℕ) : Char := Char.ofNat (48 + n % 10)

/-- Fuel-driven decimal digit expansion, most significant digit first;
`fuel ≥ n` always suffices. -/
def natDigitsAux : ℕ → ℕ → List Char → List Char
  | 0, _, acc => acc
  | fuel + 1, n, acc =>
    if n < 10 then digitChar n :: acc
    else natDigitsAux fuel (n / 10) (digitChar (n % 10) :: acc)

/-- Decimal digit characters of a natural number (`"0"` for zero). -/
def natDigits (n : ℕ) : List Char := natDigitsAux (n + 1) n []

/-- Digit characters of `|q|` rounded half away from zero at `f` decimal
places, zero-padded on the left to at least `f + 1` digits. -/
def toFixedDigits (q : Frac) (f : ℕ) : List Char :=
  List.replicate (f + 1 - (natDigits (roundHalfUp ⟨(q.num.natAbs : ℤ) * ((10 : ℕ) ^ f : ℕ), q.den, q.pos⟩).toNat).length) '0' ++
    natDigits (roundHalfUp ⟨(q.num.natAbs : ℤ) * ((10 : ℕ) ^ f : ℕ), q.den, q.pos⟩).toNat

/-- The ECMA-262 `Number.prototype.toFixed` algorithm on an exact finite
value: round the magnitude half away from zero at `f` decimal places and
print it with exactly `f` digits after the point (no point when `f = 0`),
prefixing the sign. -/
def toFixedFrac (q : Frac) (f : ℕ) : String :=
  (if q.num < 0 then ("-") else ("")) ++
    (if f = 0 then String.mk (toFixedDigits q f)
     else String.mk (List.take ((toFixedDigits q f).length - f) (toFixedDigits q f)) ++ "." ++
       String.mk (List.drop ((toFixedDigits q f).length - f) (toFixedDigits q f)))

/-- The JavaScript `toFixed` call on any number. -/
def jsToFixed (x : JSFloat) (f : ℕ) : String :=
  match x with
  | .nan => "NaN"
  | .inf neg => if neg then "-Infinity" else "Infinity"
  | .fin q => toFixedFrac q f

/-- The JavaScript number literal `1`. -/
def oneJS : JSFloat := .fin (Frac.ofInt 1)

/-- The JavaScript number literal `10`. -/
def tenJS : JSFloat := .fin (Frac.ofInt 10)

/-- The JavaScript number literal `0.1`: the double nearest to one tenth. -/
def pointOneJS : JSFloat := .fin (toDouble ⟨1, 10, by decide⟩)

/-- Translation of the plugin's `formatPrice` (src, `formatPrice`):
`"N/A"` passes through, a NaN parse yields `"N/A"`, otherwise the cents
value is shown in dollars with two decimals when `cents / 100 >= 1` and in
cents with one decimal otherwise. -/
def formatPrice (priceStr : String) : String :=
  if priceStr = "N/A" then ("N/A")
  else if jsIsNaN (parseFloat priceStr) then ("N/A")
  else if jsGe (jsDiv100 (parseFloat priceStr)) oneJS then ("$" ++ jsToFixed (jsDiv100 (parseFloat priceStr)) 2)
  else (jsToFixed (parseFloat priceStr) 1 ++ "¢")

/-- Translation of the three-branch `formatPrice` the repository's test
file asserts against (`test/comed-pricing.test.js`): it adds a
two-decimal cents branch for `dollars < 0.1`. -/
def formatPriceTestVariant (priceStr : String) : String :=
  if priceStr = "N/A" then ("N/A")
  else if jsIsNaN (parseFloat priceStr) then ("N/A")
  else if jsGe (jsDiv100 (parseFloat priceStr)) oneJS then ("$" ++ jsToFixed (jsDiv100 (parseFloat priceStr)) 2)
  else if jsGe (jsDiv100 (parseFloat priceStr)) pointOneJS then (jsToFixed (parseFloat priceStr) 1 ++ "¢")
  else (jsToFixed (parseFloat priceStr) 2 ++ "¢")

/-- The three trend values of the plugin. -/
inductive Trend where
  | up
  | down
  | neutral
  deriving DecidableEq

/-- Translation of the plugin's `calculateTrend`: neutral when the previous
price is `undefined` or falsy (the empty string), when either price reads
`"N/A"` or fails to parse, else the sign of the change. -/
def calculateTrend (previousPrice : Option String) (currentPrice : String) : Trend :=
  match previousPrice with
  | none => Trend.neutral
  | some p =>
    if p = "" || p = "N/A" || currentPrice = "N/A" then Trend.neutral
    else if jsIsNaN (parseFloat p) || jsIsNaN (parseFloat currentPrice) then Trend.neutral
    else if jsGt (parseFloat currentPrice) (parseFloat p) then Trend.up
    else if jsLt (parseFloat currentPrice) (parseFloat p) then Trend.down
    else Trend.neutral

/-- One entry of a ComEd feed response. -/
structure ComedPriceData where
  millisUTC : String
  price : String
  deriving DecidableEq

/-- Extraction `data[0]?.price || "N/A"`: the head's price, with a missing
entry or a falsy (empty) price both replaced by `"N/A"`. -/
def currentPriceOf (data : List ComedPriceData) : String :=
  match data.head? with
  | some d => if d.price = "" then ("N/A") else d.price
  | none => ("N/A")

/-- Extraction `data[1]?.price`: the second entry's price, if any
(an empty price passes through here — there is no `||` fallback). -/
def previousPriceOf (data : List ComedPriceData) : Option String :=
  (data.get? 1).map ComedPriceData.price

/-- The state written by `action.setState`: `parseFloat(price) > 10 ? 1 : 0`. -/
def stateOf (currentFiveMinPrice : String) : ℕ :=
  if jsGt (parseFloat currentFiveMinPrice) tenJS then 1 else 0

/-- The primary text colour of the pricing SVG: red above the 10-cent
threshold, green otherwise, from the raw five-minute price. -/
def primaryColorOf (rawFiveMinPrice : String) : String :=
  if jsGt (parseFloat rawFiveMinPrice) tenJS then ("#ff4444") else ("#44ff44")

/-- Fixed chunk of the pricing SVG before the background colour. -/
def svgA : String := "<svg xmlns=\"http://www.w3.org/2000/svg\" width=\"72\" height=\"72\" viewBox=\"0 0 72 72\">\n\t<rect width=\"72\" height=\"72\" fill=\""

/-- Fixed chunk of the pricing SVG between background and primary colour. -/
def svgB : String := "\" rx=\"8\"/>\n\t\n\n\t<!-- 5-minute price (large, prominent) -->\n\t<text x=\"26\" y=\"28\" text-anchor=\"middle\" fill=\""

/-- Fixed chunk of the pricing SVG between primary colour and price text. -/
def svgC : String := "\" \n\t\t  font-family=\"Arial, sans-serif\" font-size=\"18\" font-weight=\"bold\">\n\t\t"

/-- Fixed chunk of the pricing SVG between price text and trend element. -/
def svgD : String := "\n\t</text>\n\n  "

/-- Fixed chunk of the pricing SVG between trend element and secondary colour. -/
def svgE : String := "\n\n\t<!-- Hourly average (smaller) -->\n\t<text x=\"36\" y=\"54\" text-anchor=\"middle\" fill=\""

/-- Fixed chunk of the pricing SVG between secondary colour and hourly text. -/
def svgF : String := "\" \n\t\t  font-family=\"Arial, sans-serif\" font-size=\"14\">\n\t\t"

/-- Fixed tail of the pricing SVG after the hourly price. -/
def svgG : String := " avg\n\t</text>\n</svg>"

/-- Fixed chunk of the trend text element before its colour. -/
def trendElemA : String := "<text x=\"60\" y=\"28\" text-anchor=\"middle\" fill=\""

/-- Fixed chunk of the trend text element between colour and symbol. -/
def trendElemB : String := "\" font-family=\"Arial, sans-serif\" font-size=\"14\">"

/-- Fixed tail of the trend text element. -/
def trendElemC : String := "</text>"

/-- The `trendColor` picked inside `generatePricingSVG`: red arrow for a
rising price, green for a falling one. -/
def trendColorOf (trend : Trend) : String :=
  if trend = Trend.up then ("#ff4444") else if trend = Trend.down then ("#44ff44") else ("#888888")

/-- The `trendSymbol` picked inside `generatePricingSVG`. -/
def trendSymbolOf (trend : Trend) : String :=
  if trend = Trend.up then ("▲") else if trend = Trend.down then ("▼") else ("")

/-- The conditional trend text element of the pricing SVG, empty for a
neutral trend. -/
def trendElemOf (trend : Trend) : String :=
  if trend ≠ Trend.neutral then trendElemA ++ trendColorOf trend ++ trendElemB ++ trendSymbolOf trend ++ trendElemC
  else ("")

/-- Translation of the plugin's `generatePricingSVG` template literal, with
its surrounding-whitespace `.trim()` applied: interpolation becomes
concatenation of the fixed chunks with the colours (`backgroundColor`
`"#000000"` and `secondaryColor` `"#cccccc"` inlined), the prices and the
conditional trend element. -/
def generatePricingSVG (fiveMinPrice hourlyPrice rawFiveMinPrice : String) (trend : Trend) : String :=
  svgA ++ "#000000" ++ svgB ++ primaryColorOf rawFiveMinPrice ++ svgC ++ fiveMinPrice ++ svgD ++
    trendElemOf trend ++ svgE ++ "#cccccc" ++ svgF ++ hourlyPrice ++ svgG

/-- Translation of the plugin's `generateErrorSVG` (trimmed template
literal). -/
def generateErrorSVG : String := "<svg xmlns=\"http://www.w3.org/2000/svg\" width=\"72\" height=\"72\" viewBox=\"0 0 72 72\">\n\t<rect width=\"72\" height=\"72\" fill=\"#000000\" rx=\"8\"/>\n\t<text x=\"36\" y=\"40\" text-anchor=\"middle\" fill=\"#ff4444\" \n\t\t  font-family=\"Arial, sans-serif\" font-size=\"14\" font-weight=\"bold\">\n\t\tERROR\n\t</text>\n</svg>"

/-- Result of one feed fetch: transport failure / non-ok status (which the
code turns into a thrown error) or a parsed JSON array. -/
inductive FetchResult where
  | failure
  | success (data : List ComedPriceData)
  deriving DecidableEq

/-- The settings object stored by `action.setSettings` on a successful tick. -/
structure Settings where
  fiveMinPrice : String
  hourlyPrice : String
  fiveMinFormatted : String
  hourlyFormatted : String
  trend : Trend
  lastUpdate : ℕ
  deriving DecidableEq

/-- Observable effect of one `updatePricing` tick on the action boundary:
the final image and title, and the settings / state written (none when the
respective call never happens). -/
structure TickOutput where
  image : String
  title : String
  settingsSet : Option Settings
  stateSet : Option ℕ
  deriving DecidableEq

/-- Translation of the body of the plugin's `updatePricing`, as a function
from the two fetch outcomes (and the current time used for `lastUpdate`) to
the boundary effects.  A failed fetch throws, landing in the catch block:
error icon, title `"Error"`, no settings and no state written. -/
def updatePricing (fiveMinResult hourlyResult : FetchResult) (now : ℕ) : TickOutput :=
  match fiveMinResult, hourlyResult with
  | .success fiveMinData, .success hourlyData =>
    { image := generatePricingSVG (formatPrice (currentPriceOf fiveMinData))
        (formatPrice (currentPriceOf hourlyData)) (currentPriceOf fiveMinData)
        (calculateTrend (previousPriceOf fiveMinData) (currentPriceOf fiveMinData)),
      title := "",
      settingsSet := some ⟨currentPriceOf fiveMinData, currentPriceOf hourlyData,
        formatPrice (currentPriceOf fiveMinData), formatPrice (currentPriceOf hourlyData),
        calculateTrend (previousPriceOf fiveMinData) (currentPriceOf fiveMinData), now⟩,
      stateSet := some (stateOf (currentPriceOf fiveMinData)) }
  | _, _ =>
    { image := generateErrorSVG, title := "Error", settingsSet := none, stateSet := none }


lemma jsLt_imp_not_jsGe (a b : JSFloat) (h : jsLt a b = true) : jsGe a b = false := by
  cases a <;> cases b <;> simp_all [jsLt, jsGe, jsLe, Frac.ltB, Frac.leB]

lemma pow2_num_nonneg (e : ℤ) : 0 ≤ (pow2 e).num := by
  unfold pow2; split <;> simp

lemma rNE_nonneg (x : Frac) (h : 0 ≤ x.num) : 0 ≤ rNE x := by
  have hf : 0 ≤ x.floor := Int.fdiv_nonneg h (by positivity)
  unfold rNE
  split_ifs <;> omega

lemma fracOfDyadic_num_nonneg (m k : ℤ) (h : 0 ≤ m) : 0 ≤ (fracOfDyadic m k).num := by
  unfold fracOfDyadic; split
  · exact mul_nonneg h (by positivity)
  · exact h

lemma toDoublePos_num_nonneg (x : Frac) (h : 0 ≤ x.num) : 0 ≤ (toDoublePos x).num := by
  unfold toDoublePos
  exact fracOfDyadic_num_nonneg _ _ (rNE_nonneg _ (mul_nonneg h (pow2_num_nonneg _)))

lemma toDouble_num_nonpos (x : Frac) (h : x.num < 0) : (toDouble x).num ≤ 0 := by
  unfold toDouble
  rw [if_neg (by omega), if_pos h]
  have h2 : 0 ≤ (toDoublePos (Frac.neg x)).num :=
    toDoublePos_num_nonneg _ (by show 0 ≤ -x.num; omega)
  show -(toDoublePos (Frac.neg x)).num ≤ 0
  omega

lemma jsGe_div100_neg (q : Frac) (h : q.num < 0) : jsGe (jsDiv100 (.fin q)) oneJS = false := by
  have hd : (toDouble ⟨q.num, q.den * 100, Nat.mul_pos q.pos (by decide)⟩).num ≤ 0 :=
    toDouble_num_nonpos _ h
  have hpos : 0 < ((toDouble ⟨q.num, q.den * 100, Nat.mul_pos q.pos (by decide)⟩).den : ℤ) :=
    Int.ofNat_pos.mpr (toDouble _).pos
  simp only [jsDiv100, jsGe, jsLe, oneJS, Frac.ofInt, Frac.leB]
  simp only [decide_eq_false_iff_not]
  omega

lemma digitChar_not_glyph (n : ℕ) : digitChar n ≠ '▲' ∧ digitChar n ≠ '▼' := by
  have h : n % 10 < 10 := Nat.mod_lt n (by decide)
  unfold digitChar
  generalize n % 10 = k at h
  interval_cases k <;> exact ⟨by decide, by decide⟩

lemma natDigitsAux_mem (fuel : ℕ) : ∀ (n : ℕ) (acc : List Char) (c : Char),
    c ∈ natDigitsAux fuel n acc → (∃ m, c = digitChar m) ∨ c ∈ acc := by
  induction fuel with
  | zero => intro n acc c h; exact Or.inr h
  | succ fuel ih =>
    intro n acc c h
    unfold natDigitsAux at h
    split at h
    · rcases List.mem_cons.mp h with h | h
      · exact Or.inl ⟨n, h⟩
      · exact Or.inr h
    · rcases ih (n / 10) (digitChar (n % 10) :: acc) c h with h | h
      · exact Or.inl h
      · rcases List.mem_cons.mp h with h | h
        · exact Or.inl ⟨n % 10, h⟩
        · exact Or.inr h

lemma natDigits_mem (n : ℕ) (c : Char) (h : c ∈ natDigits n) : ∃ m, c = digitChar m := by
  rcases natDigitsAux_mem _ _ _ _ h with h | h
  · exact h
  · cases h

lemma toFixedDigits_mem (q : Frac) (f : ℕ) (c : Char) (h : c ∈ toFixedDigits q f) :
    c = '0' ∨ ∃ m, c = digitChar m := by
  unfold toFixedDigits at h
  rcases List.mem_append.mp h with h | h
  · exact Or.inl (List.eq_of_mem_replicate h)
  · exact Or.inr (natDigits_mem _ _ h)

lemma toFixedFrac_mem (q : Frac) (f : ℕ) (c : Char) (h : c ∈ (toFixedFrac q f).data) :
    c = '-' ∨ c = '.' ∨ c = '0' ∨ ∃ m, c = digitChar m := by
  unfold toFixedFrac at h
  simp only [String.data_append] at h
  rcases List.mem_append.mp h with h | h
  · split at h
    · simp at h; exact Or.inl h
    · cases h
  · split at h
    · rcases toFixedDigits_mem q f c h with h | h
      · exact Or.inr (Or.inr (Or.inl h))
      · exact Or.inr (Or.inr (Or.inr h))
    · simp only [String.data_append] at h
      rcases List.mem_append.mp h with h' | h'
      · rcases List.mem_append.mp h' with h'' | h''
        · rcases toFixedDigits_mem q f c (List.mem_of_mem_take h'') with h3 | h3
          · exact Or.inr (Or.inr (Or.inl h3))
          · exact Or.inr (Or.inr (Or.inr h3))
        · simp at h''; exact Or.inr (Or.inl h'')
      · rcases toFixedDigits_mem q f c (List.mem_of_mem_drop h') with h3 | h3
        · exact Or.inr (Or.inr (Or.inl h3))
        · exact Or.inr (Or.inr (Or.inr h3))

lemma jsToFixed_no_glyph (x : JSFloat) (f : ℕ) :
    '▲' ∉ (jsToFixed x f).data ∧ '▼' ∉ (jsToFixed x f).data := by
  cases x with
  | nan =>
    show '▲' ∉ ("NaN").data ∧ '▼' ∉ ("NaN").data
    exact ⟨by decide, by decide⟩
  | inf neg =>
    cases neg
    · show '▲' ∉ ("Infinity").data ∧ '▼' ∉ ("Infinity").data
      exact ⟨by decide, by decide⟩
    · show '▲' ∉ ("-Infinity").data ∧ '▼' ∉ ("-Infinity").data
      exact ⟨by decide, by decide⟩
  | fin q =>
    constructor <;> intro h <;> rcases toFixedFrac_mem q f _ h with h | h | h | ⟨m, h⟩ <;>
      first
        | exact absurd h (by decide)
        | exact (digitChar_not_glyph m).1 h.symm
        | exact (digitChar_not_glyph m).2 h.symm

lemma formatPrice_no_glyph (s : String) :
    '▲' ∉ (formatPrice s).data ∧ '▼' ∉ (formatPrice s).data := by
  unfold formatPrice
  split_ifs
  · exact ⟨by decide, by decide⟩
  · exact ⟨by decide, by decide⟩
  · constructor <;> intro h
    · exact (jsToFixed_no_glyph _ _).1 (by simpa [String.data_append] using h)
    · exact (jsToFixed_no_glyph _ _).2 (by simpa [String.data_append] using h)
  · constructor <;> intro h
    · exact (jsToFixed_no_glyph _ _).1 (by simpa [String.data_append] using h)
    · exact (jsToFixed_no_glyph _ _).2 (by simpa [String.data_append] using h)

/-- C1: the claim says `formatPrice` has a third branch printing cents with
two decimals when `cents / 100 < 0.1`, so that `formatPrice("3.25")` is
`"3.25¢"`.  The shipped plugin has no such branch — every sub-dollar price
is printed with `toFixed(1)` — so it returns `"3.3¢"` on `"3.25"`; the
three-branch variant asserted by the repository's own test file returns
`"3.25¢"` there.  The claim describes the intended behaviour, the plugin
code diverges from its test. -/
theorem claim_C1 : formatPrice ("3.25") = "3.3¢" ∧ formatPriceTestVariant ("3.25") = "3.25¢" := by
  decide

set_option maxRecDepth 40000 in
/-- C2: when either feed fetch fails (transport error or non-ok status),
the tick produces exactly the error outcome: the error icon as image,
title `"Error"`, and neither `setSettings` nor `setState` is called; the
error icon is the fixed 72x72 SVG with red (`#ff4444`) bold `ERROR` text. -/
theorem claim_C2 (r1 r2 : FetchResult) (now : ℕ)
    (h : r1 = FetchResult.failure ∨ r2 = FetchResult.failure) :
    updatePricing r1 r2 now = ⟨generateErrorSVG, "Error", none, none⟩ ∧
    (∃ u v : List Char, generateErrorSVG.data = u ++ ("ERROR").data ++ v) ∧
    (∃ u v : List Char, generateErrorSVG.data =
      u ++ ("fill=\"#ff4444\" \n\t\t  font-family=\"Arial, sans-serif\" font-size=\"14\" font-weight=\"bold\"").data ++ v) ∧
    (∃ u v : List Char, generateErrorSVG.data = u ++ ("width=\"72\" height=\"72\"").data ++ v) := by
  refine ⟨?_,
    ⟨("<svg xmlns=\"http://www.w3.org/2000/svg\" width=\"72\" height=\"72\" viewBox=\"0 0 72 72\">\n\t<rect width=\"72\" height=\"72\" fill=\"#000000\" rx=\"8\"/>\n\t<text x=\"36\" y=\"40\" text-anchor=\"middle\" fill=\"#ff4444\" \n\t\t  font-family=\"Arial, sans-serif\" font-size=\"14\" font-weight=\"bold\">\n\t\t").data,
     ("\n\t</text>\n</svg>").data, by decide⟩,
    ⟨("<svg xmlns=\"http://www.w3.org/2000/svg\" width=\"72\" height=\"72\" viewBox=\"0 0 72 72\">\n\t<rect width=\"72\" height=\"72\" fill=\"#000000\" rx=\"8\"/>\n\t<text x=\"36\" y=\"40\" text-anchor=\"middle\" ").data,
     (">\n\t\tERROR\n\t</text>\n</svg>").data, by decide⟩,
    ⟨("<svg xmlns=\"http://www.w3.org/2000/svg\" ").data,
     (" viewBox=\"0 0 72 72\">\n\t<rect width=\"72\" height=\"72\" fill=\"#000000\" rx=\"8\"/>\n\t<text x=\"36\" y=\"40\" text-anchor=\"middle\" fill=\"#ff4444\" \n\t\t  font-family=\"Arial, sans-serif\" font-size=\"14\" font-weight=\"bold\">\n\t\tERROR\n\t</text>\n</svg>").data, by decide⟩⟩
  rcases h with h | h
  · subst h; cases r2 <;> rfl
  · subst h; cases r1 <;> rfl

set_option maxRecDepth 40000 in
theorem claim_C2_witness :
    updatePricing FetchResult.failure (FetchResult.success []) 0 = ⟨generateErrorSVG, "Error", none, none⟩ ∧
    (∃ u v : List Char, generateErrorSVG.data = u ++ ("ERROR").data ++ v) ∧
    (∃ u v : List Char, generateErrorSVG.data =
      u ++ ("fill=\"#ff4444\" \n\t\t  font-family=\"Arial, sans-serif\" font-size=\"14\" font-weight=\"bold\"").data ++ v) ∧
    (∃ u v : List Char, generateErrorSVG.data = u ++ ("width=\"72\" height=\"72\"").data ++ v) :=
  claim_C2 FetchResult.failure (FetchResult.success []) 0 (Or.inl rfl)

/-- C4: the emitted state is `1` exactly when the parsed five-minute price
exceeds 10 (cents), `0` otherwise — in particular a parse failure (NaN)
and the boundary value 10 itself both give the normal state `0` — and a
successful tick passes exactly this classification to `setState`. -/
theorem claim_C4 (s : String) :
    (∀ q : Frac, parseFloat s = JSFloat.fin q →
      ((stateOf s = 1 ↔ 10 * (q.den : ℤ) < q.num) ∧ (stateOf s = 0 ↔ ¬(10 * (q.den : ℤ) < q.num)))) ∧
    (parseFloat s = JSFloat.nan → stateOf s = 0) ∧
    (∀ (d5 dh : List ComedPriceData) (now : ℕ),
      (updatePricing (FetchResult.success d5) (FetchResult.success dh) now).stateSet =
        some (stateOf (currentPriceOf d5))) ∧
    stateOf ("10") = 0 := by
  refine ⟨?_, ?_, ?_, by decide⟩
  · intro q hq
    simp only [stateOf, hq, jsGt, jsLt, tenJS, Frac.ofInt, Frac.ltB, mul_one]
    by_cases hl : 10 * (q.den : ℤ) < q.num
    · simp [hl]
    · simp [hl]
  · intro h
    simp [stateOf, h, jsGt, jsLt, tenJS, Frac.ofInt]
  · intro d5 dh now
    rfl

theorem claim_C4_witness : stateOf ("15.7") = 1 :=
  (((claim_C4 ("15.7")).1 ⟨8838314268714598, 562949953421312, by decide⟩ (by decide)).1).mpr
    (by decide)

/-- C10: a first feed entry whose `price` field is the empty string (the
only falsy string) is replaced by `"N/A"` by the `|| "N/A"` extraction,
exactly as a missing entry is; the formatted price is then `"N/A"`, and a
second entry with an empty price makes the computed trend neutral. -/
theorem claim_C10 (e : ComedPriceData) (rest : List ComedPriceData) (h : e.price = "") :
    currentPriceOf (e :: rest) = "N/A" ∧
    currentPriceOf (e :: rest) = currentPriceOf [] ∧
    formatPrice (currentPriceOf (e :: rest)) = "N/A" ∧
    (∀ (d0 : ComedPriceData) (rest2 : List ComedPriceData) (cur : String),
      calculateTrend (previousPriceOf (d0 :: e :: rest2)) cur = Trend.neutral) := by
  have h1 : currentPriceOf (e :: rest) = "N/A" := by simp [currentPriceOf, h]
  refine ⟨h1, by rw [h1]; rfl, by rw [h1]; decide, ?_⟩
  intro d0 rest2 cur
  have h2 : previousPriceOf (d0 :: e :: rest2) = some e.price := by simp [previousPriceOf]
  rw [h2, h]
  simp [calculateTrend]

theorem claim_C10_witness :
    currentPriceOf [⟨("x"), ("")⟩] = "N/A" ∧
    formatPrice (currentPriceOf [⟨("x"), ("")⟩]) = "N/A" ∧
    calculateTrend (previousPriceOf [⟨("y"), ("5.0")⟩, ⟨("x"), ("")⟩]) ("5.0") = Trend.neutral :=
  ⟨(claim_C10 ⟨("x"), ("")⟩ [] rfl).1, (claim_C10 ⟨("x"), ("")⟩ [] rfl).2.2.1,
    (claim_C10 ⟨("x"), ("")⟩ [] rfl).2.2.2 ⟨("y"), ("5.0")⟩ [] ("5.0")⟩

lemma jsLt_asymm (a b : JSFloat) (h : jsLt a b = true) : jsLt b a = false := by
  cases a <;> cases b <;> simp_all [jsLt, Frac.ltB] <;> omega

lemma jsLt_imp_not_jsEq (a b : JSFloat) (h : jsLt a b = true) :
    jsEq a b = false ∧ jsEq b a = false := by
  cases a <;> cases b <;> simp_all [jsLt, jsEq, Frac.ltB, Frac.eqB] <;> omega

lemma js_trichotomy (a b : JSFloat) (ha : jsIsNaN a = false) (hb : jsIsNaN b = false)
    (h1 : jsLt a b = false) (h2 : jsLt b a = false) : jsEq a b = true := by
  cases a with
  | nan => simp [jsIsNaN] at ha
  | inf n₁ =>
    cases b with
    | nan => simp [jsIsNaN] at hb
    | inf n₂ => cases n₁ <;> cases n₂ <;> simp_all [jsLt, jsEq]
    | fin q => cases n₁ <;> simp_all [jsLt, jsEq]
  | fin q₁ =>
    cases b with
    | nan => simp [jsIsNaN] at hb
    | inf n₂ => cases n₂ <;> simp_all [jsLt, jsEq]
    | fin q₂ =>
      simp_all [jsLt, jsEq, Frac.ltB, Frac.eqB]
      omega

/-- C3: `calculateTrend` is total and returns neutral when the previous
price is absent or empty, when either price reads `"N/A"`, or when either
fails numeric parse; otherwise it returns up exactly when the current
price parses greater than the previous, down exactly when less, and
neutral exactly when the two parsed values are equal. -/
theorem claim_C3 (prev : Option String) (cur : String) :
    (calculateTrend prev cur = Trend.up ∨ calculateTrend prev cur = Trend.down ∨
      calculateTrend prev cur = Trend.neutral) ∧
    (prev = none ∨ prev = some ("") ∨ prev = some ("N/A") ∨ cur = "N/A" →
      calculateTrend prev cur = Trend.neutral) ∧
    (∀ p : String, prev = some p → p ≠ "" → p ≠ "N/A" → cur ≠ "N/A" →
      ((jsIsNaN (parseFloat p) = true ∨ jsIsNaN (parseFloat cur) = true) →
        calculateTrend prev cur = Trend.neutral) ∧
      (jsIsNaN (parseFloat p) = false → jsIsNaN (parseFloat cur) = false →
        ((calculateTrend prev cur = Trend.up ↔ jsGt (parseFloat cur) (parseFloat p) = true) ∧
         (calculateTrend prev cur = Trend.down ↔ jsLt (parseFloat cur) (parseFloat p) = true) ∧
         (calculateTrend prev cur = Trend.neutral ↔ jsEq (parseFloat cur) (parseFloat p) = true)))) := by
  cases prev with
  | none =>
    refine ⟨Or.inr (Or.inr rfl), fun _ => rfl, ?_⟩
    intro p hp
    cases hp
  | some p' =>
    by_cases hpe : p' = ""
    · subst hpe
      have hT : calculateTrend (some ("")) cur = Trend.neutral := by simp [calculateTrend]
      refine ⟨Or.inr (Or.inr hT), fun _ => hT, ?_⟩
      intro p hp hne _ _
      injection hp with h
      exact absurd h.symm hne
    · by_cases hpn : p' = "N/A"
      · subst hpn
        have hT : calculateTrend (some ("N/A")) cur = Trend.neutral := by simp [calculateTrend]
        refine ⟨Or.inr (Or.inr hT), fun _ => hT, ?_⟩
        intro p hp _ hne _
        injection hp with h
        exact absurd h.symm hne
      · by_cases hcn : cur = "N/A"
        · have hT : calculateTrend (some p') cur = Trend.neutral := by
            simp [calculateTrend, hcn]
          refine ⟨Or.inr (Or.inr hT), fun _ => hT, ?_⟩
          intro p hp _ _ hne
          exact absurd hcn hne
        · have part2 : (some p' = none ∨ some p' = some ("") ∨ some p' = some ("N/A") ∨
              cur = "N/A") → calculateTrend (some p') cur = Trend.neutral := by
            intro hd
            rcases hd with h | h | h | h
            · cases h
            · injection h with h; exact absurd h hpe
            · injection h with h; exact absurd h hpn
            · exact absurd h hcn
          have hcond : calculateTrend (some p') cur =
              (if jsIsNaN (parseFloat p') || jsIsNaN (parseFloat cur) then Trend.neutral
               else if jsGt (parseFloat cur) (parseFloat p') then Trend.up
               else if jsLt (parseFloat cur) (parseFloat p') then Trend.down
               else Trend.neutral) := by
            simp [calculateTrend, hpe, hpn, hcn]
          cases hN1 : jsIsNaN (parseFloat p') with
          | true =>
            have hT : calculateTrend (some p') cur = Trend.neutral := by
              rw [hcond]; simp [hN1]
            refine ⟨Or.inr (Or.inr hT), part2, ?_⟩
            intro p hp _ _ _
            injection hp with h
            subst h
            refine ⟨fun _ => hT, fun hf1 _ => ?_⟩
            exact absurd hf1 (by simp [hN1])
          | false =>
            cases hN2 : jsIsNaN (parseFloat cur) with
            | true =>
              have hT : calculateTrend (some p') cur = Trend.neutral := by
                rw [hcond]; simp [hN1, hN2]
              refine ⟨Or.inr (Or.inr hT), part2, ?_⟩
              intro p hp _ _ _
              injection hp with h
              subst h
              refine ⟨fun _ => hT, fun _ hf2 => ?_⟩
              exact absurd hf2 (by simp [hN2])
            | false =>
              cases hGt : jsGt (parseFloat cur) (parseFloat p') with
              | true =>
                have hT : calculateTrend (some p') cur = Trend.up := by
                  rw [hcond]; simp [hN1, hN2, hGt]
                have hLtF : jsLt (parseFloat cur) (parseFloat p') = false :=
                  jsLt_asymm _ _ (by simpa [jsGt] using hGt)
                have hEqF : jsEq (parseFloat cur) (parseFloat p') = false :=
                  (jsLt_imp_not_jsEq _ _ (by simpa [jsGt] using hGt)).2
                refine ⟨Or.inl hT, part2, ?_⟩
                intro p hp _ _ _
                injection hp with h
                subst h
                refine ⟨fun hd => ?_, fun _ _ => ⟨⟨fun _ => hGt, fun _ => hT⟩, ?_, ?_⟩⟩
                · rcases hd with h | h
                  · exact absurd h (by simp [hN1])
                  · exact absurd h (by simp [hN2])
                · constructor
                  · intro h
                    rw [hT] at h
                    exact absurd h (by decide)
                  · intro h
                    exact absurd h (by simp [hLtF])
                · constructor
                  · intro h
                    rw [hT] at h
                    exact absurd h (by decide)
                  · intro h
                    exact absurd h (by simp [hEqF])
              | false =>
                cases hLt : jsLt (parseFloat cur) (parseFloat p') with
                | true =>
                  have hT : calculateTrend (some p') cur = Trend.down := by
                    rw [hcond]; simp [hN1, hN2, hGt, hLt]
                  have hEqF : jsEq (parseFloat cur) (parseFloat p') = false :=
                    (jsLt_imp_not_jsEq _ _ hLt).1
                  refine ⟨Or.inr (Or.inl hT), part2, ?_⟩
                  intro p hp _ _ _
                  injection hp with h
                  subst h
                  refine ⟨fun hd => ?_, fun _ _ => ⟨?_, ⟨fun _ => hLt, fun _ => hT⟩, ?_⟩⟩
                  · rcases hd with h | h
                    · exact absurd h (by simp [hN1])
                    · exact absurd h (by simp [hN2])
                  · constructor
                    · intro h
                      rw [hT] at h
                      exact absurd h (by decide)
                    · intro h
                      exact absurd h (by simp [hGt])
                  · constructor
                    · intro h
                      rw [hT] at h
                      exact absurd h (by decide)
                    · intro h
                      exact absurd h (by simp [hEqF])
                | false =>
                  have hT : calculateTrend (some p') cur = Trend.neutral := by
                    rw [hcond]; simp [hN1, hN2, hGt, hLt]
                  have hEq : jsEq (parseFloat cur) (parseFloat p') = true :=
                    js_trichotomy _ _ hN2 hN1 hLt (by simpa [jsGt] using hGt)
                  refine ⟨Or.inr (Or.inr hT), part2, ?_⟩
                  intro p hp _ _ _
                  injection hp with h
                  subst h
                  refine ⟨fun hd => ?_, fun _ _ => ⟨?_, ?_, ⟨fun _ => hEq, fun _ => hT⟩⟩⟩
                  · rcases hd with h | h
                    · exact absurd h (by simp [hN1])
                    · exact absurd h (by simp [hN2])
                  · constructor
                    · intro h
                      rw [hT] at h
                      exact absurd h (by decide)
                    · intro h
                      exact absurd h (by simp [hGt])
                  · constructor
                    · intro h
                      rw [hT] at h
                      exact absurd h (by decide)
                    · intro h
                      exact absurd h (by simp [hLt])

theorem claim_C3_witness : calculateTrend (some ("5.0")) ("5.5") = Trend.up :=
  (((claim_C3 (some ("5.0")) ("5.5")).2.2 ("5.0") rfl (by decide) (by decide)
    (by decide)).2 (by decide) (by decide)).1.mpr (by decide)

lemma toFixedFrac_neg (q : Frac) (f : ℕ) (h : q.num < 0) :
    ∃ r : String, toFixedFrac q f = "-" ++ r := by
  unfold toFixedFrac
  rw [if_pos h]
  exact ⟨_, rfl⟩

/-- C5: for every input whose parse succeeds, `formatPrice` prints
`"$" + dollars.toFixed(2)` when `dollars = cents / 100` is at least one,
and `cents.toFixed(1) + "¢"` when `0.1 <= dollars < 1`; in particular
`formatPrice("250.5") = "$2.50"` and `formatPrice("15.7") = "15.7¢"`. -/
theorem claim_C5 :
    (∀ (s : String) (q : Frac), parseFloat s = JSFloat.fin q →
      (jsGe (jsDiv100 (JSFloat.fin q)) oneJS = true →
        formatPrice s = "$" ++ jsToFixed (jsDiv100 (JSFloat.fin q)) 2) ∧
      (jsGe (jsDiv100 (JSFloat.fin q)) pointOneJS = true →
        jsLt (jsDiv100 (JSFloat.fin q)) oneJS = true →
        formatPrice s = jsToFixed (JSFloat.fin q) 1 ++ "¢")) ∧
    formatPrice ("250.5") = "$2.50" ∧ formatPrice ("15.7") = "15.7¢" := by
  refine ⟨?_, by decide, by decide⟩
  intro s q hq
  have hsNA : ¬(s = "N/A") := by
    intro h
    subst h
    rw [show parseFloat ("N/A") = JSFloat.nan from by decide] at hq
    cases hq
  constructor
  · intro hge
    simp [formatPrice, hsNA, hq, jsIsNaN, hge]
  · intro _ hlt
    have hge : jsGe (jsDiv100 (JSFloat.fin q)) oneJS = false := jsLt_imp_not_jsGe _ _ hlt
    simp [formatPrice, hsNA, hq, jsIsNaN, hge]

theorem claim_C5_witness :
    formatPrice ("250.5") = "$" ++ jsToFixed (jsDiv100 (JSFloat.fin ⟨8813685208252416, 35184372088832, by decide⟩)) 2 ∧
    formatPrice ("15.7") = jsToFixed (JSFloat.fin ⟨8838314268714598, 562949953421312, by decide⟩) 1 ++ "¢" :=
  ⟨((claim_C5.1 ("250.5") ⟨8813685208252416, 35184372088832, by decide⟩ (by decide)).1 (by decide)),
   ((claim_C5.1 ("15.7") ⟨8838314268714598, 562949953421312, by decide⟩ (by decide)).2 (by decide) (by decide))⟩

/-- C6: `formatPrice` is total; the input `"N/A"` and every input whose
numeric parse fails map to `"N/A"`, and every negative numeric input
(finite or negative infinity) formats with a leading minus sign. -/
theorem claim_C6 :
    formatPrice ("N/A") = "N/A" ∧
    (∀ s : String, parseFloat s = JSFloat.nan → formatPrice s = "N/A") ∧
    (∀ (s : String) (q : Frac), parseFloat s = JSFloat.fin q → q.num < 0 →
      (formatPrice s).data.head? = some '-') ∧
    (∀ s : String, parseFloat s = JSFloat.inf true → (formatPrice s).data.head? = some '-') := by
  refine ⟨by decide, ?_, ?_, ?_⟩
  · intro s h
    by_cases hs : s = "N/A"
    · subst hs; decide
    · simp [formatPrice, hs, h, jsIsNaN]
  · intro s q hq hneg
    have hsNA : ¬(s = "N/A") := by
      intro h
      subst h
      rw [show parseFloat ("N/A") = JSFloat.nan from by decide] at hq
      cases hq
    have hge : jsGe (jsDiv100 (JSFloat.fin q)) oneJS = false := jsGe_div100_neg q hneg
    obtain ⟨r, hr⟩ := toFixedFrac_neg q 1 hneg
    simp [formatPrice, hsNA, hq, jsIsNaN, hge, jsToFixed, hr, String.data_append]
  · intro s h
    have hsNA : ¬(s = "N/A") := by
      intro hh
      subst hh
      rw [show parseFloat ("N/A") = JSFloat.nan from by decide] at h
      cases h
    simp only [formatPrice, h]
    simp [hsNA, jsIsNaN, jsDiv100, jsGe, jsLe, oneJS, jsToFixed, String.data_append]

theorem claim_C6_witness :
    formatPrice ("abc") = "N/A" ∧
    (formatPrice ("-5.2")).data.head? = some '-' ∧
    (formatPrice ("-Infinity")).data.head? = some '-' :=
  ⟨claim_C6.2.1 ("abc") (by decide),
   claim_C6.2.2.1 ("-5.2") ⟨-5854679515581645, 1125899906842624, by decide⟩ (by decide) (by decide),
   claim_C6.2.2.2 ("-Infinity") (by decide)⟩

/-- The full red up-triangle text element rendered for a rising trend. -/
def upGlyphRed : String := "<text x=\"60\" y=\"28\" text-anchor=\"middle\" fill=\"#ff4444\" font-family=\"Arial, sans-serif\" font-size=\"14\">▲</text>"

/-- The full green down-triangle text element rendered for a falling trend. -/
def downGlyphGreen : String := "<text x=\"60\" y=\"28\" text-anchor=\"middle\" fill=\"#44ff44\" font-family=\"Arial, sans-serif\" font-size=\"14\">▼</text>"

set_option maxRecDepth 100000 in
lemma trendElemOf_up : trendElemOf Trend.up = upGlyphRed := by decide

set_option maxRecDepth 100000 in
lemma trendElemOf_down : trendElemOf Trend.down = downGlyphGreen := by decide

lemma primaryColorOf_no_glyph (raw : String) :
    '▲' ∉ (primaryColorOf raw).data ∧ '▼' ∉ (primaryColorOf raw).data := by
  unfold primaryColorOf
  split <;> exact ⟨by decide, by decide⟩

set_option maxRecDepth 100000 in
lemma trendElemOf_no_up (t : Trend) (ht : t ≠ Trend.up) : '▲' ∉ (trendElemOf t).data := by
  cases t with
  | up => exact absurd rfl ht
  | down => decide
  | neutral => decide

set_option maxRecDepth 100000 in
lemma trendElemOf_no_down (t : Trend) (ht : t ≠ Trend.down) : '▼' ∉ (trendElemOf t).data := by
  cases t with
  | up => decide
  | down => exact absurd rfl ht
  | neutral => decide

lemma svg_split (f h raw : String) (t : Trend) :
    (generatePricingSVG f h raw t).data =
      (svgA ++ "#000000" ++ svgB ++ primaryColorOf raw ++ svgC ++ f ++ svgD).data ++
      (trendElemOf t).data ++
      (svgE ++ "#cccccc" ++ svgF ++ h ++ svgG).data := by
  simp [generatePricingSVG, String.data_append, List.append_assoc]

set_option maxRecDepth 100000 in
lemma svg_no_up (f h raw : String) (t : Trend) (hf : '▲' ∉ f.data) (hh : '▲' ∉ h.data)
    (ht : t ≠ Trend.up) : '▲' ∉ (generatePricingSVG f h raw t).data := by
  have hA : '▲' ∉ svgA.data := by decide
  have hB : '▲' ∉ svgB.data := by decide
  have hC : '▲' ∉ svgC.data := by decide
  have hD : '▲' ∉ svgD.data := by decide
  have hE : '▲' ∉ svgE.data := by decide
  have hF : '▲' ∉ svgF.data := by decide
  have hG : '▲' ∉ svgG.data := by decide
  have hbg : '▲' ∉ ("#000000").data := by decide
  have hsec : '▲' ∉ ("#cccccc").data := by decide
  have hpc := (primaryColorOf_no_glyph raw).1
  have hte := trendElemOf_no_up t ht
  rw [svg_split]
  simp [String.data_append, List.mem_append, hA, hB, hC, hD, hE, hF, hG, hbg, hsec, hpc, hte, hf, hh]

set_option maxRecDepth 100000 in
lemma svg_no_down (f h raw : String) (t : Trend) (hf : '▼' ∉ f.data) (hh : '▼' ∉ h.data)
    (ht : t ≠ Trend.down) : '▼' ∉ (generatePricingSVG f h raw t).data := by
  have hA : '▼' ∉ svgA.data := by decide
  have hB : '▼' ∉ svgB.data := by decide
  have hC : '▼' ∉ svgC.data := by decide
  have hD : '▼' ∉ svgD.data := by decide
  have hE : '▼' ∉ svgE.data := by decide
  have hF : '▼' ∉ svgF.data := by decide
  have hG : '▼' ∉ svgG.data := by decide
  have hbg : '▼' ∉ ("#000000").data := by decide
  have hsec : '▼' ∉ ("#cccccc").data := by decide
  have hpc := (primaryColorOf_no_glyph raw).2
  have hte := trendElemOf_no_down t ht
  rw [svg_split]
  simp [String.data_append, List.mem_append, hA, hB, hC, hD, hE, hF, hG, hbg, hsec, hpc, hte, hf, hh]

set_option maxRecDepth 100000 in
/-- C7: a pricing SVG rendered from pipeline-formatted prices contains the
red up-triangle text element exactly when the trend is up, the green
down-triangle text element exactly when the trend is down, and neither
triangle character at all when the trend is neutral. -/
theorem claim_C7 (p5 ph raw : String) (t : Trend) :
    ((∃ u v : List Char,
        (generatePricingSVG (formatPrice p5) (formatPrice ph) raw t).data =
          u ++ upGlyphRed.data ++ v) ↔ t = Trend.up) ∧
    ((∃ u v : List Char,
        (generatePricingSVG (formatPrice p5) (formatPrice ph) raw t).data =
          u ++ downGlyphGreen.data ++ v) ↔ t = Trend.down) ∧
    (t = Trend.neutral →
      '▲' ∉ (generatePricingSVG (formatPrice p5) (formatPrice ph) raw t).data ∧
      '▼' ∉ (generatePricingSVG (formatPrice p5) (formatPrice ph) raw t).data) := by
  have hfup := (formatPrice_no_glyph p5).1
  have hfdn := (formatPrice_no_glyph p5).2
  have hhup := (formatPrice_no_glyph ph).1
  have hhdn := (formatPrice_no_glyph ph).2
  have hupmem : '▲' ∈ upGlyphRed.data := by decide
  have hdnmem : '▼' ∈ downGlyphGreen.data := by decide
  cases t with
  | up =>
    refine ⟨⟨fun _ => rfl, fun _ => ?_⟩,
      ⟨fun hx => ?_, fun hx => absurd hx (by decide)⟩,
      fun hx => absurd hx (by decide)⟩
    · refine ⟨(svgA ++ "#000000" ++ svgB ++ primaryColorOf raw ++ svgC ++ formatPrice p5 ++ svgD).data,
        (svgE ++ "#cccccc" ++ svgF ++ formatPrice ph ++ svgG).data, ?_⟩
      rw [svg_split, trendElemOf_up]
    · obtain ⟨u, v, huv⟩ := hx
      have hmem : '▼' ∈ (generatePricingSVG (formatPrice p5) (formatPrice ph) raw Trend.up).data := by
        rw [huv]
        exact List.mem_append.mpr (Or.inl (List.mem_append.mpr (Or.inr hdnmem)))
      exact absurd hmem (svg_no_down _ _ raw _ hfdn hhdn (by decide))
  | down =>
    refine ⟨⟨fun hx => ?_, fun hx => absurd hx (by decide)⟩,
      ⟨fun _ => rfl, fun _ => ?_⟩,
      fun hx => absurd hx (by decide)⟩
    · obtain ⟨u, v, huv⟩ := hx
      have hmem : '▲' ∈ (generatePricingSVG (formatPrice p5) (formatPrice ph) raw Trend.down).data := by
        rw [huv]
        exact List.mem_append.mpr (Or.inl (List.mem_append.mpr (Or.inr hupmem)))
      exact absurd hmem (svg_no_up _ _ raw _ hfup hhup (by decide))
    · refine ⟨(svgA ++ "#000000" ++ svgB ++ primaryColorOf raw ++ svgC ++ formatPrice p5 ++ svgD).data,
        (svgE ++ "#cccccc" ++ svgF ++ formatPrice ph ++ svgG).data, ?_⟩
      rw [svg_split, trendElemOf_down]
  | neutral =>
    refine ⟨⟨fun hx => ?_, fun hx => absurd hx (by decide)⟩,
      ⟨fun hx => ?_, fun hx => absurd hx (by decide)⟩,
      fun _ => ⟨svg_no_up _ _ raw _ hfup hhup (by decide),
        svg_no_down _ _ raw _ hfdn hhdn (by decide)⟩⟩
    · obtain ⟨u, v, huv⟩ := hx
      have hmem : '▲' ∈ (generatePricingSVG (formatPrice p5) (formatPrice ph) raw Trend.neutral).data := by
        rw [huv]
        exact List.mem_append.mpr (Or.inl (List.mem_append.mpr (Or.inr hupmem)))
      exact absurd hmem (svg_no_up _ _ raw _ hfup hhup (by decide))
    · obtain ⟨u, v, huv⟩ := hx
      have hmem : '▼' ∈ (generatePricingSVG (formatPrice p5) (formatPrice ph) raw Trend.neutral).data := by
        rw [huv]
        exact List.mem_append.mpr (Or.inl (List.mem_append.mpr (Or.inr hdnmem)))
      exact absurd hmem (svg_no_down _ _ raw _ hfdn hhdn (by decide))

theorem claim_C7_witness :
    '▲' ∉ (generatePricingSVG (formatPrice ("8.5")) (formatPrice ("7.0")) ("8.5") Trend.neutral).data ∧
    '▼' ∉ (generatePricingSVG (formatPrice ("8.5")) (formatPrice ("7.0")) ("8.5") Trend.neutral).data :=
  (claim_C7 ("8.5") ("7.0") ("8.5") Trend.neutral).2.2 rfl

/-- C8: on a successful tick the state passed to `setState` and the primary
text colour of the rendered SVG agree, and both are driven by the single
predicate `parseFloat(raw five-minute price) > 10`: state `1` goes with
fill `#ff4444` and state `0` with fill `#44ff44`; the SVG's primary fill
slot (right after the fixed chunk ending in `fill="`) carries exactly that
colour. -/
theorem claim_C8 (fiveMinData hourlyData : List ComedPriceData) (now : ℕ) :
    (updatePricing (FetchResult.success fiveMinData) (FetchResult.success hourlyData) now).stateSet =
      some (stateOf (currentPriceOf fiveMinData)) ∧
    (stateOf (currentPriceOf fiveMinData) = 1 ↔
      jsGt (parseFloat (currentPriceOf fiveMinData)) tenJS = true) ∧
    (stateOf (currentPriceOf fiveMinData) = 1 ↔
      primaryColorOf (currentPriceOf fiveMinData) = "#ff4444") ∧
    (stateOf (currentPriceOf fiveMinData) = 0 ↔
      primaryColorOf (currentPriceOf fiveMinData) = "#44ff44") ∧
    (∃ rest : List Char,
      (updatePricing (FetchResult.success fiveMinData) (FetchResult.success hourlyData) now).image.data =
        (svgA ++ "#000000" ++ svgB).data ++ (primaryColorOf (currentPriceOf fiveMinData)).data ++ rest) := by
  refine ⟨rfl, ?_, ?_, ?_, ?_⟩
  · cases hgt : jsGt (parseFloat (currentPriceOf fiveMinData)) tenJS
    · simp [stateOf, hgt]
    · simp [stateOf, hgt]
  · cases hgt : jsGt (parseFloat (currentPriceOf fiveMinData)) tenJS
    · simp [stateOf, primaryColorOf, hgt]
    · simp [stateOf, primaryColorOf, hgt]
  · cases hgt : jsGt (parseFloat (currentPriceOf fiveMinData)) tenJS
    · simp [stateOf, primaryColorOf, hgt]
    · simp [stateOf, primaryColorOf, hgt]
  · refine ⟨(svgC ++ formatPrice (currentPriceOf fiveMinData) ++ svgD ++
      trendElemOf (calculateTrend (previousPriceOf fiveMinData) (currentPriceOf fiveMinData)) ++
      svgE ++ "#cccccc" ++ svgF ++ formatPrice (currentPriceOf hourlyData) ++ svgG).data, ?_⟩
    show (generatePricingSVG (formatPrice (currentPriceOf fiveMinData))
      (formatPrice (currentPriceOf hourlyData)) (currentPriceOf fiveMinData)
      (calculateTrend (previousPriceOf fiveMinData) (currentPriceOf fiveMinData))).data = _
    simp [generatePricingSVG, String.data_append, List.append_assoc]

/-- C9: the hourly feed cannot influence the trend, the emitted state, the
title, or the primary five-minute text and colour: two successful ticks
that differ only in the hourly feed produce the same state, the same
title, settings agreeing on every five-minute-derived field, and images
identical except for the hourly formatted price spliced into the one
fixed slot before the `avg` label. -/
theorem claim_C9 (d5 h1 h2 : List ComedPriceData) (now : ℕ) :
    (updatePricing (FetchResult.success d5) (FetchResult.success h1) now).stateSet =
      (updatePricing (FetchResult.success d5) (FetchResult.success h2) now).stateSet ∧
    (updatePricing (FetchResult.success d5) (FetchResult.success h1) now).title =
      (updatePricing (FetchResult.success d5) (FetchResult.success h2) now).title ∧
    (∃ s1 s2 : Settings,
      (updatePricing (FetchResult.success d5) (FetchResult.success h1) now).settingsSet = some s1 ∧
      (updatePricing (FetchResult.success d5) (FetchResult.success h2) now).settingsSet = some s2 ∧
      s1.trend = s2.trend ∧ s1.fiveMinPrice = s2.fiveMinPrice ∧
      s1.fiveMinFormatted = s2.fiveMinFormatted ∧
      s1.hourlyPrice = currentPriceOf h1 ∧ s2.hourlyPrice = currentPriceOf h2 ∧
      s1.hourlyFormatted = formatPrice (currentPriceOf h1) ∧
      s2.hourlyFormatted = formatPrice (currentPriceOf h2)) ∧
    (∃ pre post : List Char,
      (updatePricing (FetchResult.success d5) (FetchResult.success h1) now).image.data =
        pre ++ (formatPrice (currentPriceOf h1)).data ++ post ∧
      (updatePricing (FetchResult.success d5) (FetchResult.success h2) now).image.data =
        pre ++ (formatPrice (currentPriceOf h2)).data ++ post) := by
  refine ⟨rfl, rfl, ⟨_, _, rfl, rfl, rfl, rfl, rfl, rfl, rfl, rfl, rfl⟩, ?_⟩
  refine ⟨(svgA ++ "#000000" ++ svgB ++ primaryColorOf (currentPriceOf d5) ++ svgC ++
      formatPrice (currentPriceOf d5) ++ svgD ++
      trendElemOf (calculateTrend (previousPriceOf d5) (currentPriceOf d5)) ++
      svgE ++ "#cccccc" ++ svgF).data, svgG.data, ?_, ?_⟩
  · show (generatePricingSVG (formatPrice (currentPriceOf d5)) (formatPrice (currentPriceOf h1))
      (currentPriceOf d5) (calculateTrend (previousPriceOf d5) (currentPriceOf d5))).data = _
    simp [generatePricingSVG, String.data_append, List.append_assoc]
  · show (generatePricingSVG (formatPrice (currentPriceOf d5)) (formatPrice (currentPriceOf h2))
      (currentPriceOf d5) (calculateTrend (previousPriceOf d5) (currentPriceOf d5))).data = _
    simp [generatePricingSVG, String.data_append, List.append_assoc]
